import Mathlib

/-
Verification of the event watch service (topo server `WatchEvent` handler and
its cursor / start-from / from-now strategies) against its specification.

The Go source is shallowly embedded: every cache round-trip becomes an
explicit parameter (a detail store `String → Option JsonDoc`, the chain as a
`List ChainNode`, wall-clock reads as `Int` parameters), the two 25-second
long-poll deadlines become a fuel parameter respectively a per-round time
oracle, and fallible calls return `Except String`.
-/

set_option autoImplicit false

namespace BkWatch

/-- Wall-clock seconds of the source change (Go `ClusterTime.Sec`, a uint32). -/
structure ClusterTime where
  sec : Nat
  deriving DecidableEq, Repr

/-- One logical event in the cursor chain (Go `watch.ChainNode`). -/
structure ChainNode where
  cursor : String
  nextCursor : String
  clusterTime : ClusterTime
  eventType : String
  deriving DecidableEq, Repr

/-- Resource key namespace (Go `event.Key`). `detailKey` derives the cache key
holding an event's payload from its cursor; `ttlSeconds` is the retention
window. -/
structure Key where
  headKey : String
  tailKey : String
  detailKey : String → String
  ttlSeconds : Int

/-- A detail payload, modelled as the association list of top-level JSON
fields of the stored document. -/
abbrev JsonDoc := List (String × String)

/-- Client intent (Go `watch.WatchEventOptions`). -/
structure WatchEventOptions where
  resource : String
  cursor : String
  startFrom : Int
  eventTypes : List String
  fields : List String
  deriving DecidableEq, Repr

/-- One response element (Go `watch.WatchEventResp`); `detail = none` is the
null detail of a miss. -/
structure WatchEventResp where
  cursor : String
  resource : String
  detail : Option JsonDoc
  deriving DecidableEq, Repr

/-- The HTTP reply assembled by the handler: always status 200, either an
error body or an entity with the event list. -/
structure HttpReply where
  status : Nat
  isError : Bool
  events : List WatchEventResp
  deriving DecidableEq, Repr

/-- Modelled from the spec: `watch.NoEventCursor` is a fixed sentinel string
known to clients and the service; its package is not under src/, so the
concrete value is opaque here. -/
def NoEventCursor : String := "no_event_cursor"

/-- Modelled from the spec: `eventStep` is a package-level constant referenced
but not defined under src/; the spec picks a small window such as 200. -/
def eventStep : Nat := 200

/-- The 25 second long-poll deadline (Go `timeoutWatchLoopSeconds`). -/
def timeoutWatchLoopSeconds : Int := 25

/-- Go error string for a StartFrom outside the TTL window on an empty chain. -/
def outOfRangeErr : String := "bk_start_from value is out of range"

/-- Go error string for a StartFrom preceding retained history. -/
def tooSmallErr : String := "bk_start_from value is too small"

/-- Go error string when the StartFrom scan exceeds its 25 s budget. -/
def scanTimeoutErr : String := "scan the event cost too long time"

/-- Error for a cache detail lookup that finds nothing. -/
def detailErr : String := "get detail failed"

/-- Error for the pipelined multi-get when some detail is missing. -/
def pipelineErr : String := "get event detail failed"

/-- Error when the chain holds no latest event. -/
def noEventErr : String := "get latest event failed"

/-- Error when the client's cursor is not resolvable in the chain. -/
def cursorNotFoundErr : String := "cursor not resolvable"

/-- Modelling artifact only: the cursor-mode loop in Go runs until its
deadline; fuel exhaustion does not correspond to any Go behaviour and is
never reached in the theorems below. -/
def loopFuelErr : String := "watch loop fuel exhausted"

/-- Modelled from the spec: `json.CutJsonDataWithFields` is not under src/.
Per the spec, with an empty field list the document is returned unchanged;
otherwise only the listed top-level fields present in the source are kept,
missing fields are omitted. -/
def CutJsonDataWithFields (doc : JsonDoc) (fields : List String) : JsonDoc :=
  if fields = [] then doc else doc.filter (fun kv => fields.contains kv.fst)

/-- Event-type filter (Go `getHitNodeWithEventType`): an empty type list
passes everything, otherwise keep in input order exactly the nodes whose
`EventType` is in the set (the Go map membership test). -/
def getHitNodeWithEventType (nodes : List ChainNode) (typs : List String) :
    List ChainNode :=
  if typs = [] then nodes
  else if nodes = [] then nodes
  else nodes.filter (fun node => typs.contains node.eventType)

/-- The nodes of the chain strictly after the node carrying the given cursor. -/
def nodesAfter : List ChainNode → String → List ChainNode
  | [], _ => []
  | n :: rest, cursor => if n.cursor = cursor then rest else nodesAfter rest cursor

/-- Modelled from the spec: `getNodesFromCursor` is not under src/. It fetches
up to `step` nodes strictly after the given cursor: from the oldest real node
when the cursor is `HeadKey()`, and fails when the cursor is not resolvable
in the chain. -/
def getNodesFromCursor (step : Nat) (cursor : String) (key : Key)
    (chain : List ChainNode) : Except String (List ChainNode) :=
  if cursor = key.headKey then Except.ok (chain.take step)
  else if chain.any (fun n => n.cursor == cursor) then
    Except.ok ((nodesAfter chain cursor).take step)
  else Except.error cursorNotFoundErr

/-- Pipelined multi-get of the hit nodes' details (Go
`getEventsWithCursorNodes`): one `GET` per node issued in one pipeline, an
error if any lookup fails, otherwise one response per node in order with the
detail projected to `opts.Fields`. -/
def getEventsWithCursorNodes (opts : WatchEventOptions)
    (hitNodes : List ChainNode) (key : Key) (cache : String → Option JsonDoc) :
    Except String (List WatchEventResp) :=
  match hitNodes.mapM (fun node => cache (key.detailKey node.cursor)) with
  | none => Except.error pipelineErr
  | some details =>
    Except.ok (List.zipWith
      (fun node d =>
        { cursor := node.cursor
          resource := opts.resource
          detail := some (CutJsonDataWithFields d opts.fields) })
      hitNodes details)

/-- Modelled from the spec: `getLatestEventDetail` is not under src/. It
returns the newest real event's node together with its detail in one fetch,
failing when the chain is empty or the detail is missing. -/
def getLatestEventDetail (key : Key) (chain : List ChainNode)
    (cache : String → Option JsonDoc) : Except String (ChainNode × JsonDoc) :=
  match chain.getLast? with
  | none => Except.error noEventErr
  | some node =>
    match cache (key.detailKey node.cursor) with
    | none => Except.error detailErr
    | some detail => Except.ok (node, detail)

/-- From-now mode (Go `watchFromNow`): fetch the latest node and detail; a
type miss yields a `NoEventCursor` miss with null detail, a hit yields the
latest node's cursor with its field-projected detail. -/
def watchFromNow (key : Key) (opts : WatchEventOptions) (chain : List ChainNode)
    (cache : String → Option JsonDoc) : Except String WatchEventResp :=
  match getLatestEventDetail key chain cache with
  | Except.error e => Except.error e
  | Except.ok (node, tailTarget) =>
    if getHitNodeWithEventType [node] opts.eventTypes = [] then
      Except.ok { cursor := NoEventCursor, resource := opts.resource, detail := none }
    else
      Except.ok
        { cursor := node.cursor
          resource := opts.resource
          detail := some (CutJsonDataWithFields tailTarget opts.fields) }

/-- The per-window match of the StartFrom scan: type-filtered nodes whose
cluster time is at least `StartFrom` (the Go loop body's inclusive `>=`). -/
def startFromMatched (opts : WatchEventOptions) (nodes : List ChainNode) :
    List ChainNode :=
  (getHitNodeWithEventType nodes opts.eventTypes).filter
    (fun node => opts.startFrom ≤ (node.clusterTime.sec : Int))

/-- The StartFrom scan loop of Go `watchWithStartFrom`: walk windows from the
given cursor; fuel models the 25 s `time.After` deadline, whose firing is the
`scanTimeoutErr` exit. An empty window is the sentinel-inconsistency miss; a
window with matches is answered through the pipeline; a complete miss at the
tail returns the last node's cursor with its individually fetched, raw
detail; otherwise advance to the window's last cursor. -/
def startFromScan (key : Key) (opts : WatchEventOptions) (chain : List ChainNode)
    (cache : String → Option JsonDoc) : Nat → String → Except String (List WatchEventResp)
  | 0, _ => Except.error scanTimeoutErr
  | fuel + 1, nextCursor =>
    match getNodesFromCursor eventStep nextCursor key chain with
    | Except.error e => Except.error e
    | Except.ok [] =>
      Except.ok [{ cursor := NoEventCursor, resource := opts.resource, detail := none }]
    | Except.ok (n :: rest) =>
      if startFromMatched opts (n :: rest) ≠ [] then
        getEventsWithCursorNodes opts (startFromMatched opts (n :: rest)) key cache
      else
        if ((n :: rest).getLast (List.cons_ne_nil n rest)).nextCursor = key.tailKey then
          match cache (key.detailKey ((n :: rest).getLast (List.cons_ne_nil n rest)).cursor) with
          | none => Except.error detailErr
          | some detail =>
            Except.ok
              [{ cursor := ((n :: rest).getLast (List.cons_ne_nil n rest)).cursor
                 resource := opts.resource
                 detail := some detail }]
        else
          startFromScan key opts chain cache fuel
            ((n :: rest).getLast (List.cons_ne_nil n rest)).cursor

/-- StartFrom mode (Go `watchWithStartFrom`). `headTarget` and `tailTarget`
are the results of the absent `getHeadTailNodeTargetNode` collaborator (first
and last real nodes, or the sentinel-adjacent representation when the chain
is empty) and `now` is the `time.Now().Unix()` read. The empty-chain gate,
too-old gate and too-new degradation precede the scan from `HeadKey()`. -/
def watchWithStartFrom (key : Key) (opts : WatchEventOptions)
    (headTarget tailTarget : ChainNode) (chain : List ChainNode)
    (cache : String → Option JsonDoc) (now : Int) (fuel : Nat) :
    Except String (List WatchEventResp) :=
  if (headTarget.nextCursor = key.tailKey ∨ tailTarget.nextCursor = key.headKey) ∧
      (now - opts.startFrom < 0 ∨ now - opts.startFrom > key.ttlSeconds) then
    Except.error outOfRangeErr
  else if opts.startFrom < (headTarget.clusterTime.sec : Int) then
    Except.error tooSmallErr
  else if (tailTarget.clusterTime.sec : Int) < opts.startFrom then
    Except.map (fun r => [r]) (watchFromNow key opts chain cache)
  else
    startFromScan key opts chain cache fuel key.headKey

/-- The cursor-mode long-poll loop of Go `watchWithCursor`. The chain may
grow between rounds (`chainAt`), `timeAt` is the `time.Now().Unix()` read of
each round's deadline checks, and the start cursor is never advanced across
rounds. Fuel only bounds the recursion; the Go loop exits solely through its
branches. -/
def watchWithCursorLoop (key : Key) (opts : WatchEventOptions)
    (cache : String → Option JsonDoc) (chainAt : Nat → List ChainNode)
    (timeAt : Nat → Int) (start : Int) (startCursor : String) :
    Nat → Nat → Except String (List WatchEventResp)
  | 0, _ => Except.error loopFuelErr
  | fuel + 1, round =>
    match getNodesFromCursor eventStep startCursor key (chainAt round) with
    | Except.error e => Except.error e
    | Except.ok [] =>
      if timeoutWatchLoopSeconds < timeAt round - start then
        Except.ok [{ cursor := NoEventCursor, resource := opts.resource, detail := none }]
      else
        watchWithCursorLoop key opts cache chainAt timeAt start startCursor fuel (round + 1)
    | Except.ok (n :: rest) =>
      if getHitNodeWithEventType (n :: rest) opts.eventTypes ≠ [] then
        getEventsWithCursorNodes opts (getHitNodeWithEventType (n :: rest) opts.eventTypes)
          key cache
      else if timeoutWatchLoopSeconds < timeAt round - start then
        Except.ok
          [{ cursor := ((n :: rest).getLast (List.cons_ne_nil n rest)).cursor
             resource := opts.resource
             detail := none }]
      else
        watchWithCursorLoop key opts cache chainAt timeAt start startCursor fuel (round + 1)

/-- Cursor mode (Go `watchWithCursor`): a `NoEventCursor` resumes from the
head key, then the long-poll loop runs from round 0. -/
def watchWithCursor (key : Key) (opts : WatchEventOptions)
    (cache : String → Option JsonDoc) (chainAt : Nat → List ChainNode)
    (timeAt : Nat → Int) (start : Int) (fuel : Nat) :
    Except String (List WatchEventResp) :=
  watchWithCursorLoop key opts cache chainAt timeAt start
    (if opts.cursor = NoEventCursor then key.headKey else opts.cursor) fuel 0

/-- The handler dispatch of Go `WatchEvent` after decoding and validation: a
non-empty cursor selects cursor mode, else a non-zero StartFrom selects
start-from mode, else from-now; every strategy error becomes an HTTP-200
error body, every success an HTTP-200 entity, and the from-now response is
wrapped in a one-element list. -/
def WatchEvent (key : Key) (opts : WatchEventOptions)
    (headTarget tailTarget : ChainNode) (chain : List ChainNode)
    (cache : String → Option JsonDoc) (now : Int) (startFuel : Nat)
    (chainAt : Nat → List ChainNode) (timeAt : Nat → Int) (start : Int)
    (cursorFuel : Nat) : HttpReply :=
  if opts.cursor ≠ "" then
    match watchWithCursor key opts cache chainAt timeAt start cursorFuel with
    | Except.error _ => { status := 200, isError := true, events := [] }
    | Except.ok events => { status := 200, isError := false, events := events }
  else if opts.startFrom ≠ 0 then
    match watchWithStartFrom key opts headTarget tailTarget chain cache now startFuel with
    | Except.error _ => { status := 200, isError := true, events := [] }
    | Except.ok events => { status := 200, isError := false, events := events }
  else
    match watchFromNow key opts chain cache with
    | Except.error _ => { status := 200, isError := true, events := [] }
    | Except.ok ev => { status := 200, isError := false, events := [ev] }

/-! Sample data for concrete evaluations. -/

/-- A sample namespace key. -/
def sampleKey : Key :=
  { headKey := "head", tailKey := "tail", detailKey := fun c => "d:" ++ c,
    ttlSeconds := 3600 }

/-- Sample chain node, oldest. -/
def nodeA : ChainNode := { cursor := "a", nextCursor := "b", clusterTime := ⟨100⟩, eventType := "create" }

/-- Sample chain node, middle. -/
def nodeB : ChainNode := { cursor := "b", nextCursor := "c", clusterTime := ⟨101⟩, eventType := "update" }

/-- Sample chain node, newest. -/
def nodeC : ChainNode := { cursor := "c", nextCursor := "tail", clusterTime := ⟨102⟩, eventType := "create" }

/-- Sample detail documents. -/
def docA : JsonDoc := [("bk_inst_id", "1"), ("bk_inst_name", "x")]

/-- Sample detail document for `nodeB`. -/
def docB : JsonDoc := [("bk_inst_id", "2"), ("bk_inst_name", "y")]

/-- Sample detail document for `nodeC`. -/
def docC : JsonDoc := [("bk_inst_id", "3"), ("bk_inst_name", "z")]

/-- Sample detail store holding the three sample documents. -/
def sampleCache : String → Option JsonDoc := fun s =>
  if s = "d:a" then some docA
  else if s = "d:b" then some docB
  else if s = "d:c" then some docC
  else none

/-- Sample detail assignment used by the pipeline lemmas. -/
def sampleDetailOf : ChainNode → JsonDoc := fun n =>
  if n.cursor = "a" then docA else if n.cursor = "b" then docB else docC

/-! Helper lemmas shared by the claims. -/

/-- The accumulator form of the multi-get: with every detail present the loop
returns the reversed accumulator followed by the assigned details. -/
theorem mapM_detail_loop (key : Key) (cache : String → Option JsonDoc)
    (d : ChainNode → JsonDoc) :
    ∀ (l : List ChainNode) (acc : List JsonDoc),
      (∀ n ∈ l, cache (key.detailKey n.cursor) = some (d n)) →
      List.mapM.loop (fun node => cache (key.detailKey node.cursor)) l acc =
        some (acc.reverse ++ l.map d)
  | [], acc, _ => by simp [List.mapM.loop]
  | n :: rest, acc, h => by
    have hn : cache (key.detailKey n.cursor) = some (d n) := h n (by simp)
    have hr := mapM_detail_loop key cache d rest (d n :: acc)
      (fun x hx => h x (by simp [hx]))
    simp [List.mapM.loop, hn, hr]

/-- A multi-get over nodes whose details are all present returns exactly the
assigned details in order. -/
theorem mapM_detail_eq (key : Key) (cache : String → Option JsonDoc)
    (d : ChainNode → JsonDoc) (l : List ChainNode)
    (h : ∀ n ∈ l, cache (key.detailKey n.cursor) = some (d n)) :
    l.mapM (fun node => cache (key.detailKey node.cursor)) = some (l.map d) := by
  simpa [List.mapM] using mapM_detail_loop key cache d l [] h

/-- Zipping a list with its own image collapses to a single map. -/
theorem zipWith_map_self {α β γ : Type} (f : α → β → γ) (g : α → β) :
    ∀ l : List α, List.zipWith f l (l.map g) = l.map (fun a => f a (g a))
  | [] => rfl
  | a :: l => by simp [zipWith_map_self f g l]

/-- The pipelined fetch, when every detail is present, yields one response per
hit node in order, detail projected to the requested fields. -/
theorem getEventsWithCursorNodes_all_found (opts : WatchEventOptions) (key : Key)
    (cache : String → Option JsonDoc) (d : ChainNode → JsonDoc) (l : List ChainNode)
    (h : ∀ n ∈ l, cache (key.detailKey n.cursor) = some (d n)) :
    getEventsWithCursorNodes opts l key cache =
      Except.ok (l.map (fun n =>
        { cursor := n.cursor
          resource := opts.resource
          detail := some (CutJsonDataWithFields (d n) opts.fields) })) := by
  unfold getEventsWithCursorNodes
  rw [mapM_detail_eq key cache d l h]
  simp [zipWith_map_self]

/-- Options builder for the concrete witnesses: resource "host", no cursor. -/
def mkOpts (sf : Int) (types fields : List String) : WatchEventOptions :=
  { resource := "host", cursor := "", startFrom := sf, eventTypes := types,
    fields := fields }

/-- The sentinel-adjacent head target of an empty chain. -/
def emptyHeadTarget : ChainNode :=
  { cursor := "head", nextCursor := "tail", clusterTime := ⟨0⟩, eventType := "" }

/-- The sentinel-adjacent tail target of an empty chain. -/
def emptyTailTarget : ChainNode :=
  { cursor := "tail", nextCursor := "head", clusterTime := ⟨2000⟩, eventType := "" }

/-- The chain walker fails only with the unresolvable-cursor error. -/
theorem getNodesFromCursor_error_eq (step : Nat) (cursor : String) (key : Key)
    (chain : List ChainNode) (e : String)
    (h : getNodesFromCursor step cursor key chain = Except.error e) :
    e = cursorNotFoundErr := by
  unfold getNodesFromCursor at h
  split at h
  · cases h
  · split at h
    · cases h
    · injection h with h
      exact h.symm

/-- The pipelined fetch never produces the "too small" range error. -/
theorem getEventsWithCursorNodes_not_tooSmall (opts : WatchEventOptions)
    (l : List ChainNode) (key : Key) (cache : String → Option JsonDoc) :
    getEventsWithCursorNodes opts l key cache ≠ Except.error tooSmallErr := by
  unfold getEventsWithCursorNodes
  cases l.mapM (fun node => cache (key.detailKey node.cursor)) with
  | none =>
    intro h
    injection h with h
    exact absurd h (by decide)
  | some details => simp

/-- The latest-event fetch fails only with the no-event or missing-detail
errors. -/
theorem getLatestEventDetail_error_cases (key : Key) (chain : List ChainNode)
    (cache : String → Option JsonDoc) (e : String)
    (h : getLatestEventDetail key chain cache = Except.error e) :
    e = noEventErr ∨ e = detailErr := by
  unfold getLatestEventDetail at h
  split at h
  · injection h with h
    exact Or.inl h.symm
  · split at h
    · injection h with h
      exact Or.inr h.symm
    · cases h

/-- From-now mode never produces the "too small" range error. -/
theorem watchFromNow_not_tooSmall (key : Key) (opts : WatchEventOptions)
    (chain : List ChainNode) (cache : String → Option JsonDoc) :
    watchFromNow key opts chain cache ≠ Except.error tooSmallErr := by
  intro h
  unfold watchFromNow at h
  split at h
  · rename_i e heq
    injection h with h
    rw [h] at heq
    rcases getLatestEventDetail_error_cases key chain cache tooSmallErr heq with hc | hc
    · exact absurd hc (by decide)
    · exact absurd hc (by decide)
  · split at h
    · cases h
    · cases h

/-- The StartFrom scan never produces the "too small" range error. -/
theorem startFromScan_not_tooSmall (key : Key) (opts : WatchEventOptions)
    (chain : List ChainNode) (cache : String → Option JsonDoc) :
    ∀ (fuel : Nat) (cursor : String),
      startFromScan key opts chain cache fuel cursor ≠ Except.error tooSmallErr
  | 0, _ => by
    unfold startFromScan
    intro h
    injection h with h
    exact absurd h (by decide)
  | fuel + 1, cursor => by
    intro h
    unfold startFromScan at h
    split at h
    · rename_i e heq
      injection h with h
      rw [h] at heq
      have := getNodesFromCursor_error_eq eventStep cursor key chain tooSmallErr heq
      exact absurd this.symm (by decide)
    · cases h
    · split at h
      · exact getEventsWithCursorNodes_not_tooSmall opts _ key cache h
      · split at h
        · split at h
          · injection h with h
            exact absurd h (by decide)
          · cases h
        · exact startFromScan_not_tooSmall key opts chain cache fuel _ h

/-- A scan round whose window holds matched nodes answers through the
pipelined multi-get over exactly those nodes. -/
theorem startFromScan_hit_round (key : Key) (opts : WatchEventOptions)
    (chain : List ChainNode) (cache : String → Option JsonDoc) (fuel : Nat)
    (cursor : String) (w : List ChainNode)
    (hw : getNodesFromCursor eventStep cursor key chain = Except.ok w)
    (hm : startFromMatched opts w ≠ []) :
    startFromScan key opts chain cache (fuel + 1) cursor =
      getEventsWithCursorNodes opts (startFromMatched opts w) key cache := by
  unfold startFromScan
  rw [hw]
  cases w with
  | nil => exact absurd (by simp [startFromMatched, getHitNodeWithEventType]) hm
  | cons n rest =>
    dsimp only
    rw [if_pos hm]

/-- A scan round with a complete miss whose window ends at the tail returns
the last node's cursor with its individually fetched raw detail. -/
theorem startFromScan_tail_miss_aux (key : Key) (opts : WatchEventOptions)
    (chain : List ChainNode) (cache : String → Option JsonDoc) (fuel : Nat)
    (cursor : String) (n : ChainNode) (rest : List ChainNode) (d : JsonDoc)
    (hw : getNodesFromCursor eventStep cursor key chain = Except.ok (n :: rest))
    (hm : startFromMatched opts (n :: rest) = [])
    (htail : ((n :: rest).getLast (List.cons_ne_nil n rest)).nextCursor = key.tailKey)
    (hd : cache (key.detailKey ((n :: rest).getLast (List.cons_ne_nil n rest)).cursor) =
      some d) :
    startFromScan key opts chain cache (fuel + 1) cursor =
      Except.ok [{ cursor := ((n :: rest).getLast (List.cons_ne_nil n rest)).cursor
                   resource := opts.resource
                   detail := some d }] := by
  unfold startFromScan
  rw [hw]
  dsimp only
  rw [if_neg (by simp [hm]), if_pos htail, hd]

/-! The claims. -/

/-- C1: on a chain recognized non-empty with StartFrom inside the head/tail
cluster-time window, when the scanned window holds nodes passing the type
filter with cluster time at least StartFrom (the inclusive comparison, so a
node at exactly StartFrom is kept), start-from mode returns exactly those
matched nodes in chain order, each paired with its pipeline-fetched,
field-projected detail. -/
theorem watchWithStartFrom_in_range_hits (key : Key) (opts : WatchEventOptions)
    (headTarget tailTarget : ChainNode) (chain : List ChainNode)
    (cache : String → Option JsonDoc) (now : Int) (fuel : Nat)
    (d : ChainNode → JsonDoc)
    (hne : ¬(headTarget.nextCursor = key.tailKey ∨ tailTarget.nextCursor = key.headKey))
    (hold : (headTarget.clusterTime.sec : Int) ≤ opts.startFrom)
    (hnew : opts.startFrom ≤ (tailTarget.clusterTime.sec : Int))
    (hm : startFromMatched opts (chain.take eventStep) ≠ [])
    (hd : ∀ n ∈ startFromMatched opts (chain.take eventStep),
      cache (key.detailKey n.cursor) = some (d n)) :
    watchWithStartFrom key opts headTarget tailTarget chain cache now (fuel + 1) =
      Except.ok ((startFromMatched opts (chain.take eventStep)).map (fun n =>
        { cursor := n.cursor
          resource := opts.resource
          detail := some (CutJsonDataWithFields (d n) opts.fields) })) ∧
    (∀ n ∈ getHitNodeWithEventType (chain.take eventStep) opts.eventTypes,
      (n.clusterTime.sec : Int) = opts.startFrom →
        n ∈ startFromMatched opts (chain.take eventStep)) := by
  constructor
  · unfold watchWithStartFrom
    rw [if_neg (fun hc => hne hc.1), if_neg (not_lt.mpr hold), if_neg (not_lt.mpr hnew)]
    have hw : getNodesFromCursor eventStep key.headKey key chain =
        Except.ok (chain.take eventStep) := by
      simp [getNodesFromCursor]
    rw [startFromScan_hit_round key opts chain cache fuel key.headKey
      (chain.take eventStep) hw hm]
    exact getEventsWithCursorNodes_all_found opts key cache d _ hd
  · intro n hn hsec
    unfold startFromMatched
    exact List.mem_filter.mpr ⟨hn, by simp [hsec]⟩

/-- Witness for C1 at scenario S4 shifted to the boundary: StartFrom equals
the newest create event's cluster time, which is therefore returned. -/
theorem watchWithStartFrom_in_range_hits_witness :
    watchWithStartFrom sampleKey (mkOpts 102 ["create"] []) nodeA nodeC
        [nodeA, nodeB, nodeC] sampleCache 1000 1 =
      Except.ok [{ cursor := "c", resource := "host", detail := some docC }] ∧
    nodeC ∈ startFromMatched (mkOpts 102 ["create"] [])
      ([nodeA, nodeB, nodeC].take eventStep) :=
  ⟨((watchWithStartFrom_in_range_hits sampleKey (mkOpts 102 ["create"] []) nodeA nodeC
      [nodeA, nodeB, nodeC] sampleCache 1000 0 sampleDetailOf (by decide) (by decide)
      (by decide) (by decide) (by decide)).1).trans (by rfl),
   (watchWithStartFrom_in_range_hits sampleKey (mkOpts 102 ["create"] []) nodeA nodeC
      [nodeA, nodeB, nodeC] sampleCache 1000 0 sampleDetailOf (by decide) (by decide)
      (by decide) (by decide) (by decide)).2 nodeC (by decide) (by decide)⟩

/-- C4: on a chain recognized non-empty with StartFrom in range, when the
scanned window has no matched node and its last node links to the tail key,
start-from mode returns a single response carrying that last node's cursor
and its individually fetched detail. -/
theorem watchWithStartFrom_tail_receipt (key : Key) (opts : WatchEventOptions)
    (headTarget tailTarget : ChainNode) (chain : List ChainNode)
    (cache : String → Option JsonDoc) (now : Int) (fuel : Nat)
    (n : ChainNode) (rest : List ChainNode) (d : JsonDoc)
    (hne : ¬(headTarget.nextCursor = key.tailKey ∨ tailTarget.nextCursor = key.headKey))
    (hold : (headTarget.clusterTime.sec : Int) ≤ opts.startFrom)
    (hnew : opts.startFrom ≤ (tailTarget.clusterTime.sec : Int))
    (hc : chain.take eventStep = n :: rest)
    (hm : startFromMatched opts (n :: rest) = [])
    (htail : ((n :: rest).getLast (List.cons_ne_nil n rest)).nextCursor = key.tailKey)
    (hd : cache (key.detailKey ((n :: rest).getLast (List.cons_ne_nil n rest)).cursor) =
      some d) :
    watchWithStartFrom key opts headTarget tailTarget chain cache now (fuel + 1) =
      Except.ok [{ cursor := ((n :: rest).getLast (List.cons_ne_nil n rest)).cursor
                   resource := opts.resource
                   detail := some d }] := by
  unfold watchWithStartFrom
  rw [if_neg (fun hcc => hne hcc.1), if_neg (not_lt.mpr hold), if_neg (not_lt.mpr hnew)]
  have hw : getNodesFromCursor eventStep key.headKey key chain = Except.ok (n :: rest) := by
    simp [getNodesFromCursor, hc]
  exact startFromScan_tail_miss_aux key opts chain cache fuel key.headKey n rest d
    hw hm htail hd

/-- Witness for C4: a type filter hitting nothing drives the scan to the tail
and yields the last node's cursor with its raw detail. -/
theorem watchWithStartFrom_tail_receipt_witness :
    watchWithStartFrom sampleKey (mkOpts 101 ["delete"] []) nodeA nodeC
        [nodeA, nodeB, nodeC] sampleCache 1000 1 =
      Except.ok [{ cursor := "c", resource := "host", detail := some docC }] :=
  watchWithStartFrom_tail_receipt sampleKey (mkOpts 101 ["delete"] []) nodeA nodeC
    [nodeA, nodeB, nodeC] sampleCache 1000 0 nodeA [nodeB, nodeC] docC (by decide)
    (by decide) (by decide) (by decide) (by decide) (by decide) (by decide)

/-- C3: on an empty chain (either sentinel condition), a StartFrom whose
distance from now is negative or beyond the TTL fails with the "out of
range" error, and an in-range StartFrom falls through to the scan, which
finds nothing and returns a `NoEventCursor` miss. The head and tail targets
carry the sentinel-adjacent representation, whose cluster times bracket the
admissible StartFrom values. -/
theorem watchWithStartFrom_empty_chain (key : Key) (opts : WatchEventOptions)
    (headTarget tailTarget : ChainNode) (cache : String → Option JsonDoc)
    (now : Int) (fuel : Nat)
    (hempty : headTarget.nextCursor = key.tailKey ∨ tailTarget.nextCursor = key.headKey)
    (hsb : (headTarget.clusterTime.sec : Int) ≤ opts.startFrom)
    (hst : opts.startFrom ≤ (tailTarget.clusterTime.sec : Int)) :
    (now - opts.startFrom < 0 ∨ now - opts.startFrom > key.ttlSeconds →
      watchWithStartFrom key opts headTarget tailTarget [] cache now (fuel + 1) =
        Except.error outOfRangeErr) ∧
    (0 ≤ now - opts.startFrom → now - opts.startFrom ≤ key.ttlSeconds →
      watchWithStartFrom key opts headTarget tailTarget [] cache now (fuel + 1) =
        Except.ok [{ cursor := NoEventCursor, resource := opts.resource, detail := none }]) := by
  constructor
  · intro hbad
    unfold watchWithStartFrom
    rw [if_pos ⟨hempty, hbad⟩]
  · intro h0 h1
    unfold watchWithStartFrom
    rw [if_neg ?hdiff, if_neg (not_lt.mpr hsb), if_neg (not_lt.mpr hst)]
    case hdiff =>
      intro hc
      rcases hc.2 with h | h
      · exact absurd h (not_lt.mpr h0)
      · exact absurd h (not_lt.mpr h1)
    unfold startFromScan
    have hw : getNodesFromCursor eventStep key.headKey key [] = Except.ok [] := by
      simp [getNodesFromCursor]
    rw [hw]

/-- Witness for C3: an out-of-range StartFrom errors, an in-range one gets
the miss, on the concrete empty chain. -/
theorem watchWithStartFrom_empty_chain_witness :
    watchWithStartFrom sampleKey (mkOpts 1500 [] []) emptyHeadTarget emptyTailTarget
        [] sampleCache 90000 1 = Except.error outOfRangeErr ∧
    watchWithStartFrom sampleKey (mkOpts 1500 [] []) emptyHeadTarget emptyTailTarget
        [] sampleCache 2000 1 =
      Except.ok [{ cursor := NoEventCursor, resource := "host", detail := none }] :=
  ⟨(watchWithStartFrom_empty_chain sampleKey (mkOpts 1500 [] []) emptyHeadTarget
      emptyTailTarget sampleCache 90000 0 (Or.inl rfl) (by decide) (by decide)).1
      (by decide),
   (watchWithStartFrom_empty_chain sampleKey (mkOpts 1500 [] []) emptyHeadTarget
      emptyTailTarget sampleCache 2000 0 (Or.inl rfl) (by decide) (by decide)).2
      (by decide) (by decide)⟩

/-- C5: on a chain recognized non-empty whose tail target precedes StartFrom,
start-from mode degrades to from-now: the result is exactly from-now's single
response wrapped in a one-element list, and no scan is performed. -/
theorem watchWithStartFrom_ahead_of_tail (key : Key) (opts : WatchEventOptions)
    (headTarget tailTarget : ChainNode) (chain : List ChainNode)
    (cache : String → Option JsonDoc) (now : Int) (fuel : Nat)
    (hne : ¬(headTarget.nextCursor = key.tailKey ∨ tailTarget.nextCursor = key.headKey))
    (hold : (headTarget.clusterTime.sec : Int) ≤ opts.startFrom)
    (hnew : (tailTarget.clusterTime.sec : Int) < opts.startFrom) :
    watchWithStartFrom key opts headTarget tailTarget chain cache now fuel =
      Except.map (fun r => [r]) (watchFromNow key opts chain cache) := by
  unfold watchWithStartFrom
  rw [if_neg (fun hc => hne hc.1), if_neg (not_lt.mpr hold), if_pos hnew]

/-- Witness for C5: the degradation returns the latest event as the single
element on the concrete chain. -/
theorem watchWithStartFrom_ahead_of_tail_witness :
    watchWithStartFrom sampleKey (mkOpts 5000 [] []) nodeA nodeC
        [nodeA, nodeB, nodeC] sampleCache 6000 1 =
      Except.ok [{ cursor := "c", resource := "host", detail := some docC }] :=
  (watchWithStartFrom_ahead_of_tail sampleKey (mkOpts 5000 [] []) nodeA nodeC
      [nodeA, nodeB, nodeC] sampleCache 6000 1 (by decide) (by decide)
      (by decide)).trans rfl

/-- C6: with the chain recognized non-empty, a StartFrom strictly below the
head target's cluster time fails with the "too small" error, while a
StartFrom at least the head target's cluster time — in particular one equal
to it — never produces that error. -/
theorem watchWithStartFrom_too_small (key : Key) (opts : WatchEventOptions)
    (headTarget tailTarget : ChainNode) (chain : List ChainNode)
    (cache : String → Option JsonDoc) (now : Int) (fuel : Nat)
    (hne : ¬(headTarget.nextCursor = key.tailKey ∨ tailTarget.nextCursor = key.headKey)) :
    (opts.startFrom < (headTarget.clusterTime.sec : Int) →
      watchWithStartFrom key opts headTarget tailTarget chain cache now fuel =
        Except.error tooSmallErr) ∧
    ((headTarget.clusterTime.sec : Int) ≤ opts.startFrom →
      watchWithStartFrom key opts headTarget tailTarget chain cache now fuel ≠
        Except.error tooSmallErr) := by
  constructor
  · intro hlt
    unfold watchWithStartFrom
    rw [if_neg (fun hc => hne hc.1), if_pos hlt]
  · intro hge
    unfold watchWithStartFrom
    rw [if_neg (fun hc => hne hc.1), if_neg (not_lt.mpr hge)]
    split
    · cases hw : watchFromNow key opts chain cache with
      | error e =>
        simp only [Except.map, hw]
        intro h
        injection h with h
        exact watchFromNow_not_tooSmall key opts chain cache (by rw [hw, h])
      | ok r => simp [Except.map, hw]
    · exact startFromScan_not_tooSmall key opts chain cache fuel key.headKey

/-- Witness for C6: StartFrom 50 against head time 100 errors "too small";
StartFrom 100 (equal to the head time) does not. -/
theorem watchWithStartFrom_too_small_witness :
    watchWithStartFrom sampleKey (mkOpts 50 [] []) nodeA nodeC
        [nodeA, nodeB, nodeC] sampleCache 1000 1 = Except.error tooSmallErr ∧
    watchWithStartFrom sampleKey (mkOpts 100 [] []) nodeA nodeC
        [nodeA, nodeB, nodeC] sampleCache 1000 1 ≠ Except.error tooSmallErr :=
  ⟨(watchWithStartFrom_too_small sampleKey (mkOpts 50 [] []) nodeA nodeC
      [nodeA, nodeB, nodeC] sampleCache 1000 1 (by decide)).1 (by decide),
   (watchWithStartFrom_too_small sampleKey (mkOpts 100 [] []) nodeA nodeC
      [nodeA, nodeB, nodeC] sampleCache 1000 1 (by decide)).2 (by decide)⟩

/-- C8: the event-type filter returns its input unchanged on an empty type
set, otherwise exactly the nodes whose type is in the set in input order; a
set listing every type occurring in the input behaves like the empty set. -/
theorem getHitNodeWithEventType_filter_spec (nodes : List ChainNode)
    (typs allTypes : List String) :
    getHitNodeWithEventType nodes [] = nodes ∧
    (typs ≠ [] →
      getHitNodeWithEventType nodes typs =
        nodes.filter (fun node => typs.contains node.eventType)) ∧
    ((∀ n ∈ nodes, allTypes.contains n.eventType) →
      getHitNodeWithEventType nodes allTypes = getHitNodeWithEventType nodes []) := by
  refine ⟨by simp [getHitNodeWithEventType], ?_, ?_⟩
  · intro ht
    by_cases hn : nodes = []
    · subst hn; simp [getHitNodeWithEventType]
    · simp [getHitNodeWithEventType, ht, hn]
  · intro hall
    by_cases ht : allTypes = []
    · subst ht; rfl
    · have h0 : getHitNodeWithEventType nodes [] = nodes := by
        simp [getHitNodeWithEventType]
      rw [h0]
      by_cases hn : nodes = []
      · subst hn; simp [getHitNodeWithEventType]
      · unfold getHitNodeWithEventType
        rw [if_neg ht, if_neg hn]
        exact List.filter_eq_self.mpr (fun a ha => hall a ha)

/-- Witness for C8 at a concrete chain and type sets. -/
theorem getHitNodeWithEventType_filter_spec_witness :
    getHitNodeWithEventType [nodeA, nodeB, nodeC] [] = [nodeA, nodeB, nodeC] ∧
    getHitNodeWithEventType [nodeA, nodeB, nodeC] ["create"] = [nodeA, nodeC] ∧
    getHitNodeWithEventType [nodeA, nodeB, nodeC] ["create", "update"] =
      getHitNodeWithEventType [nodeA, nodeB, nodeC] [] := by
  obtain ⟨h1, h2, h3⟩ :=
    getHitNodeWithEventType_filter_spec [nodeA, nodeB, nodeC] ["create"]
      ["create", "update"]
  refine ⟨h1, ?_, h3 (by decide)⟩
  rw [h2 (by decide)]
  decide

/-- Cursor-mode options builder for the concrete witnesses. -/
def cursorOpts (types : List String) : WatchEventOptions :=
  { resource := "host", cursor := "c", startFrom := 0, eventTypes := types,
    fields := [] }

/-- C2: in cursor mode, at any round starting after the 25 second deadline
has elapsed, an empty window yields the single `NoEventCursor` miss with
null detail, and a non-empty window none of whose nodes passes the type
filter yields the single receipt carrying the window's last node's cursor
with null detail; neither outcome is an error. -/
theorem watchWithCursor_deadline (key : Key) (opts : WatchEventOptions)
    (cache : String → Option JsonDoc) (chainAt : Nat → List ChainNode)
    (timeAt : Nat → Int) (start : Int) (startCursor : String) (fuel round : Nat)
    (hdl : timeoutWatchLoopSeconds < timeAt round - start) :
    (getNodesFromCursor eventStep startCursor key (chainAt round) = Except.ok [] →
      watchWithCursorLoop key opts cache chainAt timeAt start startCursor (fuel + 1) round =
        Except.ok [{ cursor := NoEventCursor, resource := opts.resource, detail := none }]) ∧
    (∀ (n : ChainNode) (rest : List ChainNode),
      getNodesFromCursor eventStep startCursor key (chainAt round) = Except.ok (n :: rest) →
      getHitNodeWithEventType (n :: rest) opts.eventTypes = [] →
      watchWithCursorLoop key opts cache chainAt timeAt start startCursor (fuel + 1) round =
        Except.ok [{ cursor := ((n :: rest).getLast (List.cons_ne_nil n rest)).cursor
                     resource := opts.resource
                     detail := none }]) := by
  constructor
  · intro hw
    unfold watchWithCursorLoop
    rw [hw]
    dsimp only
    rw [if_pos hdl]
  · intro n rest hw hhit
    unfold watchWithCursorLoop
    rw [hw]
    dsimp only
    rw [if_neg (by simp [hhit]), if_pos hdl]

/-- Witness for C2: 30 seconds after start, the empty chain gives the
`NoEventCursor` miss and the unmatched window gives the last cursor receipt. -/
theorem watchWithCursor_deadline_witness :
    watchWithCursorLoop sampleKey (cursorOpts []) sampleCache (fun _ => [])
        (fun _ => 30) 0 "head" 1 0 =
      Except.ok [{ cursor := NoEventCursor, resource := "host", detail := none }] ∧
    watchWithCursorLoop sampleKey (cursorOpts ["delete"]) sampleCache
        (fun _ => [nodeA, nodeB, nodeC]) (fun _ => 30) 0 "head" 1 0 =
      Except.ok [{ cursor := "c", resource := "host", detail := none }] :=
  ⟨(watchWithCursor_deadline sampleKey (cursorOpts []) sampleCache (fun _ => [])
      (fun _ => 30) 0 "head" 0 0 (by decide)).1 rfl,
   ((watchWithCursor_deadline sampleKey (cursorOpts ["delete"]) sampleCache
      (fun _ => [nodeA, nodeB, nodeC]) (fun _ => 30) 0 "head" 0 0 (by decide)).2
      nodeA [nodeB, nodeC] rfl (by decide)).trans (by rfl)⟩

/-- C7: with the gates passed and the scan's wall-clock budget exhausted,
start-from mode returns the scan-timeout error rather than a miss response,
and the handler renders it as an HTTP-200 error body. -/
theorem watchWithStartFrom_scan_budget (key : Key) (opts : WatchEventOptions)
    (headTarget tailTarget : ChainNode) (chain : List ChainNode)
    (cache : String → Option JsonDoc) (now : Int)
    (chainAt : Nat → List ChainNode) (timeAt : Nat → Int) (start : Int)
    (cursorFuel : Nat)
    (hne : ¬(headTarget.nextCursor = key.tailKey ∨ tailTarget.nextCursor = key.headKey))
    (hold : (headTarget.clusterTime.sec : Int) ≤ opts.startFrom)
    (hnew : opts.startFrom ≤ (tailTarget.clusterTime.sec : Int))
    (hcur : opts.cursor = "") (hsf : opts.startFrom ≠ 0) :
    watchWithStartFrom key opts headTarget tailTarget chain cache now 0 =
      Except.error scanTimeoutErr ∧
    WatchEvent key opts headTarget tailTarget chain cache now 0 chainAt timeAt start
        cursorFuel =
      { status := 200, isError := true, events := [] } := by
  have h1 : watchWithStartFrom key opts headTarget tailTarget chain cache now 0 =
      Except.error scanTimeoutErr := by
    unfold watchWithStartFrom
    rw [if_neg (fun hc => hne hc.1), if_neg (not_lt.mpr hold), if_neg (not_lt.mpr hnew)]
    rfl
  refine ⟨h1, ?_⟩
  unfold WatchEvent
  rw [if_neg (by simp [hcur]), if_pos hsf, h1]

/-- Witness for C7: fuel zero models the fired 25 s deadline; the handler
answers with the status-200 error body. -/
theorem watchWithStartFrom_scan_budget_witness :
    watchWithStartFrom sampleKey (mkOpts 101 [] []) nodeA nodeC [nodeA, nodeB, nodeC]
        sampleCache 1000 0 = Except.error scanTimeoutErr ∧
    WatchEvent sampleKey (mkOpts 101 [] []) nodeA nodeC [nodeA, nodeB, nodeC]
        sampleCache 1000 0 (fun _ => []) (fun _ => 0) 0 0 =
      { status := 200, isError := true, events := [] } :=
  watchWithStartFrom_scan_budget sampleKey (mkOpts 101 [] []) nodeA nodeC
    [nodeA, nodeB, nodeC] sampleCache 1000 (fun _ => []) (fun _ => 0) 0 0 (by decide)
    (by decide) (by decide) (by decide) (by decide)

/-- C9: from-now mode returns exactly one response: a `NoEventCursor` miss
with null detail when the latest node's type misses a non-empty type set,
else the latest node's cursor with its field-projected detail; the handler
wraps the single response in a one-element list. -/
theorem watchFromNow_single_response (key : Key) (opts : WatchEventOptions)
    (headTarget tailTarget : ChainNode) (chain : List ChainNode)
    (cache : String → Option JsonDoc) (now : Int) (startFuel : Nat)
    (chainAt : Nat → List ChainNode) (timeAt : Nat → Int) (start : Int)
    (cursorFuel : Nat) (node : ChainNode) (d : JsonDoc)
    (hlast : chain.getLast? = some node)
    (hd : cache (key.detailKey node.cursor) = some d) :
    (opts.eventTypes ≠ [] → node.eventType ∉ opts.eventTypes →
      watchFromNow key opts chain cache =
        Except.ok { cursor := NoEventCursor, resource := opts.resource, detail := none }) ∧
    (opts.eventTypes = [] ∨ node.eventType ∈ opts.eventTypes →
      watchFromNow key opts chain cache =
        Except.ok { cursor := node.cursor, resource := opts.resource,
                    detail := some (CutJsonDataWithFields d opts.fields) }) ∧
    (∀ ev : WatchEventResp, opts.cursor = "" → opts.startFrom = 0 →
      watchFromNow key opts chain cache = Except.ok ev →
      WatchEvent key opts headTarget tailTarget chain cache now startFuel chainAt
          timeAt start cursorFuel =
        { status := 200, isError := false, events := [ev] }) := by
  have hlatest : getLatestEventDetail key chain cache = Except.ok (node, d) := by
    simp [getLatestEventDetail, hlast, hd]
  refine ⟨?_, ?_, ?_⟩
  · intro ht hmiss
    unfold watchFromNow
    rw [hlatest]
    dsimp only
    rw [if_pos (by simp [getHitNodeWithEventType, ht, hmiss])]
  · intro hhit
    unfold watchFromNow
    rw [hlatest]
    dsimp only
    rw [if_neg ?hne]
    case hne =>
      rcases hhit with ht | hc
      · simp [getHitNodeWithEventType, ht]
      · intro hempty
        by_cases ht : opts.eventTypes = []
        · simp [getHitNodeWithEventType, ht] at hempty
        · simp [getHitNodeWithEventType, ht, hc] at hempty
  · intro ev hcur hsf hfn
    unfold WatchEvent
    rw [if_neg (by simp [hcur]), if_neg (by simp [hsf]), hfn]

/-- Witness for C9: a type miss yields the `NoEventCursor` miss, the empty
type set yields the latest event, and the handler wraps it in one element. -/
theorem watchFromNow_single_response_witness :
    watchFromNow sampleKey (mkOpts 0 ["update"] []) [nodeA, nodeB, nodeC] sampleCache =
      Except.ok { cursor := NoEventCursor, resource := "host", detail := none } ∧
    watchFromNow sampleKey (mkOpts 0 [] []) [nodeA, nodeB, nodeC] sampleCache =
      Except.ok { cursor := "c", resource := "host", detail := some docC } ∧
    WatchEvent sampleKey (mkOpts 0 [] []) nodeA nodeC [nodeA, nodeB, nodeC] sampleCache
        0 0 (fun _ => []) (fun _ => 0) 0 0 =
      { status := 200, isError := false,
        events := [{ cursor := "c", resource := "host", detail := some docC }] } :=
  ⟨(watchFromNow_single_response sampleKey (mkOpts 0 ["update"] []) nodeA nodeC
      [nodeA, nodeB, nodeC] sampleCache 0 0 (fun _ => []) (fun _ => 0) 0 0 nodeC docC
      rfl rfl).1 (by decide) (by decide),
   ((watchFromNow_single_response sampleKey (mkOpts 0 [] []) nodeA nodeC
      [nodeA, nodeB, nodeC] sampleCache 0 0 (fun _ => []) (fun _ => 0) 0 0 nodeC docC
      rfl rfl).2.1 (Or.inl rfl)).trans (by rfl),
   (watchFromNow_single_response sampleKey (mkOpts 0 [] []) nodeA nodeC
      [nodeA, nodeB, nodeC] sampleCache 0 0 (fun _ => []) (fun _ => 0) 0 0 nodeC docC
      rfl rfl).2.2 { cursor := "c", resource := "host", detail := some docC } rfl rfl
      (by rfl)⟩

/-- C10: the tail-receipt path of the StartFrom scan returns the raw cached
detail, ignoring the requested fields, whereas the pipelined path and the
from-now hit path project the detail through `CutJsonDataWithFields`, which
is not the identity in general. -/
theorem detail_projection_paths (key : Key) (opts : WatchEventOptions)
    (chain : List ChainNode) (cache : String → Option JsonDoc) (fuel : Nat)
    (cursor : String) (n : ChainNode) (rest : List ChainNode) (d dd : JsonDoc)
    (node : ChainNode)
    (hw : getNodesFromCursor eventStep cursor key chain = Except.ok (n :: rest))
    (hm : startFromMatched opts (n :: rest) = [])
    (htail : ((n :: rest).getLast (List.cons_ne_nil n rest)).nextCursor = key.tailKey)
    (hd : cache (key.detailKey ((n :: rest).getLast (List.cons_ne_nil n rest)).cursor) =
      some d)
    (hnd : cache (key.detailKey node.cursor) = some dd) :
    startFromScan key opts chain cache (fuel + 1) cursor =
      Except.ok [{ cursor := ((n :: rest).getLast (List.cons_ne_nil n rest)).cursor
                   resource := opts.resource
                   detail := some d }] ∧
    getEventsWithCursorNodes opts [node] key cache =
      Except.ok [{ cursor := node.cursor, resource := opts.resource,
                   detail := some (CutJsonDataWithFields dd opts.fields) }] ∧
    (chain.getLast? = some node → getHitNodeWithEventType [node] opts.eventTypes ≠ [] →
      watchFromNow key opts chain cache =
        Except.ok { cursor := node.cursor, resource := opts.resource,
                    detail := some (CutJsonDataWithFields dd opts.fields) }) ∧
    CutJsonDataWithFields [("a", "1"), ("b", "2")] ["a"] = [("a", "1")] := by
  refine ⟨?_, ?_, ?_, by decide⟩
  · exact startFromScan_tail_miss_aux key opts chain cache fuel cursor n rest d
      hw hm htail hd
  · rw [getEventsWithCursorNodes_all_found opts key cache (fun _ => dd) [node]
      (by simpa using hnd)]
    simp
  · intro hlast hhit
    unfold watchFromNow
    have hlatest : getLatestEventDetail key chain cache = Except.ok (node, dd) := by
      simp [getLatestEventDetail, hlast, hnd]
    rw [hlatest]
    dsimp only
    rw [if_neg hhit]

/-- Witness for C10: with a requested field list the tail receipt still
carries the full document while the pipelined and from-now paths project it. -/
theorem detail_projection_paths_witness :
    startFromScan sampleKey (mkOpts 200 ["create"] ["bk_inst_id"])
        [nodeA, nodeB, nodeC] sampleCache 1 "head" =
      Except.ok [{ cursor := "c", resource := "host", detail := some docC }] ∧
    getEventsWithCursorNodes (mkOpts 200 ["create"] ["bk_inst_id"]) [nodeC] sampleKey
        sampleCache =
      Except.ok [{ cursor := "c", resource := "host",
                   detail := some [("bk_inst_id", "3")] }] ∧
    watchFromNow sampleKey (mkOpts 200 ["create"] ["bk_inst_id"]) [nodeA, nodeB, nodeC]
        sampleCache =
      Except.ok { cursor := "c", resource := "host",
                  detail := some [("bk_inst_id", "3")] } ∧
    CutJsonDataWithFields [("a", "1"), ("b", "2")] ["a"] = [("a", "1")] := by
  obtain ⟨h1, h2, h3, h4⟩ := detail_projection_paths sampleKey
    (mkOpts 200 ["create"] ["bk_inst_id"]) [nodeA, nodeB, nodeC] sampleCache 0 "head"
    nodeA [nodeB, nodeC] docC docC nodeC rfl (by decide) (by decide) rfl rfl
  exact ⟨h1, h2.trans (by rfl), (h3 rfl (by decide)).trans (by rfl), h4⟩

end BkWatch
